import Mathlib

/-!
Shallow embedding of the `newlang` front end (files `src/span.rs`, `src/token.rs`,
`src/error.rs`, `src/lexer.rs`, `src/parser.rs`, `src/main.rs`) together with
theorems settling the specification claims about it.

Conventions of the embedding:
* Rust `usize` indices become `Nat`; `i32` exit codes become `Int`.
* `Arc<str>` filenames become `String`; the source text is a `List Char`
  (the lexer cursor is a character index, as in `chars().nth`).
* Rust code that can panic (byte slicing of `&str`, `.expect(..)`,
  `unimplemented`) is modelled with `Option`: `none` is a panic.
* The scanning loops are modelled with an explicit fuel parameter; the
  entry points pass `source.length + 1`, which bounds the number of loop
  iterations since every iteration advances the cursor by at least one.
-/

/-- `Span` from `src/span.rs`. The Rust field `end` is renamed `stop`
(`end` is a Lean keyword). Both endpoints are stored as given; the
`ariadne::Span` impl (rendering only) returns `end + 1`. -/
structure Span where
  start : Nat
  stop : Nat
  filename : String
deriving DecidableEq, Repr

/-- `Span::new` (no validation). -/
def Span.new (start stop : Nat) (filename : String) : Span :=
  ⟨start, stop, filename⟩

/-- `Span::location`: a single-point span. -/
def Span.location (index : Nat) (filename : String) : Span :=
  Span.new index index filename

/-- `Span::extend`: keeps `self.start` and `self.filename`, takes `other.end`. -/
def Span.extend (self other : Span) : Span :=
  { start := self.start, stop := other.stop, filename := self.filename }

/-- `TokenKind` from `src/token.rs`. -/
inductive TokenKind where
  | Period
  | Slash
  | Equals
  | SemiColon
  | Let
  | Identifier
  | StringLiteral
  | IntegerLiteralBin
  | IntegerLiteralHex
  | IntegerLiteralOct
  | IntegerLiteralDec
  | FloatLiteral
  | EOF
deriving DecidableEq, Repr

/-- The `Debug` name of a `TokenKind` (used in diagnostic messages). -/
def TokenKind.name : TokenKind → String
  | .Period => "Period"
  | .Slash => "Slash"
  | .Equals => "Equals"
  | .SemiColon => "SemiColon"
  | .Let => "Let"
  | .Identifier => "Identifier"
  | .StringLiteral => "StringLiteral"
  | .IntegerLiteralBin => "IntegerLiteralBin"
  | .IntegerLiteralHex => "IntegerLiteralHex"
  | .IntegerLiteralOct => "IntegerLiteralOct"
  | .IntegerLiteralDec => "IntegerLiteralDec"
  | .FloatLiteral => "FloatLiteral"
  | .EOF => "EOF"

/-- `Token` from `src/token.rs`; `Token::new` sets `newline_before` to false.
The lexer stores owned text, so `text` is a `String`. -/
structure Token where
  kind : TokenKind
  span : Span
  text : String
  newline_before : Bool
deriving DecidableEq, Repr

/-- `Token::new`. -/
def Token.new (kind : TokenKind) (span : Span) (text : String) : Token :=
  ⟨kind, span, text, false⟩

/-- The two `ariadne::Color`s the front end attaches to labels. -/
inductive ColorKind where
  | Red
  | BrightBlue
deriving DecidableEq, Repr

/-- `ariadne::Label`: a span plus message, color and stacking order
(defaults: empty message, no color, order 0). -/
structure Label where
  span : Span
  message : String := ""
  color : Option ColorKind := none
  order : Int := 0
deriving DecidableEq, Repr

/-- `Label::new`. -/
def Label.new (span : Span) : Label := { span := span }

/-- `Label::with_message`. -/
def Label.with_message (l : Label) (m : String) : Label := { l with message := m }

/-- `Label::with_color`. -/
def Label.with_color (l : Label) (c : ColorKind) : Label := { l with color := some c }

/-- `Label::with_order`. -/
def Label.with_order (l : Label) (o : Int) : Label := { l with order := o }

/-- `ErrorReportKind` from `src/error.rs`. -/
inductive ErrorReportKind where
  | SyntaxError
  | UnexpectedCharacter
  | UnexpectedToken
  | DidYouMean
  | Custom
deriving DecidableEq, Repr

/-- The `Debug` name of an `ErrorReportKind` (used to build titles). -/
def ErrorReportKind.name : ErrorReportKind → String
  | .SyntaxError => "SyntaxError"
  | .UnexpectedCharacter => "UnexpectedCharacter"
  | .UnexpectedToken => "UnexpectedToken"
  | .DidYouMean => "DidYouMean"
  | .Custom => "Custom"

/-- `ErrorReport` from `src/error.rs` (the kind is folded into the title
by `ErrorReport::new`, exactly as in the source). -/
structure ErrorReport where
  span : Span
  title : String
  labels : List Label
  debug_labels : List Label
  note : Option String
deriving DecidableEq, Repr

/-- `ErrorReport::new`: title is `"{kind}: {message}"` except for `Custom`,
where the message is used verbatim. -/
def ErrorReport.new (kind : ErrorReportKind) (span : Span) (message : String) :
    ErrorReport :=
  let title := if kind ≠ ErrorReportKind.Custom
    then kind.name ++ ": " ++ message
    else message
  ⟨span, title, [], [], none⟩

/-- `ErrorReport::with_label`. -/
def ErrorReport.with_label (r : ErrorReport) (l : Label) : ErrorReport :=
  { r with labels := r.labels ++ [l] }

/-- `ErrorReport::with_debug_label`. -/
def ErrorReport.with_debug_label (r : ErrorReport) (l : Label) : ErrorReport :=
  { r with debug_labels := r.debug_labels ++ [l] }

/-- `ErrorReport::with_note`. -/
def ErrorReport.with_note (r : ErrorReport) (n : String) : ErrorReport :=
  { r with note := some n }

/-! ## Byte slicing of UTF-8 strings

`Lexer::push_simple` evaluates `&self.source[self.index..self.index+length]`,
which in Rust indexes the string by BYTE offsets and panics when an offset is
out of bounds or not on a UTF-8 character boundary. The following functions
model that: `none` is a panic. `Char.utf8Size` is the number of bytes of the
character's UTF-8 encoding, as in Rust's `char::len_utf8`. -/

/-- Take a prefix of exactly `n` bytes from a character list; `none` when `n`
overruns the list or falls inside a character's multi-byte encoding. -/
def takeBytes : List Char → Nat → Option (List Char)
  | _, 0 => some []
  | [], _ + 1 => none
  | c :: cs, n + 1 =>
    if c.utf8Size ≤ n + 1 then
      (takeBytes cs (n + 1 - c.utf8Size)).map (c :: ·)
    else none

/-- Drop a prefix of exactly `n` bytes from a character list; `none` when `n`
overruns the list or falls inside a character's multi-byte encoding. -/
def dropBytes : List Char → Nat → Option (List Char)
  | cs, 0 => some cs
  | [], _ + 1 => none
  | c :: cs, n + 1 =>
    if c.utf8Size ≤ n + 1 then dropBytes cs (n + 1 - c.utf8Size) else none

/-- Rust string slicing `&source[a..b]` with byte offsets `a`, `b`:
`none` (panic) when `a > b`, an offset is out of bounds, or an offset is not
a character boundary. -/
def sliceBytes (cs : List Char) (a b : Nat) : Option String :=
  if a ≤ b then
    match dropBytes cs a with
    | none => none
    | some tail =>
      match takeBytes tail (b - a) with
      | none => none
      | some mid => some (String.mk mid)
  else none

/-! ## Lexer state and primitive operations (`src/lexer.rs`) -/

/-- The `Lexer` struct: filename, source (as the character sequence the
cursor addresses), cursor, error flag, produced tokens, and the shared
diagnostic sink (modelled as the list it accumulates). -/
structure LexState where
  filename : String
  source : List Char
  index : Nat
  had_error : Bool
  tokens : List Token
  reports : List ErrorReport
deriving DecidableEq, Repr

/-- `Lexer::new`. -/
def LexState.init (filename source : String) : LexState :=
  ⟨filename, source.toList, 0, false, [], []⟩

/-- `Lexer::current`: `self.source.chars().nth(self.index)`. -/
def LexState.current (s : LexState) : Option Char := s.source.get? s.index

/-- `Lexer::peek`: `self.source.chars().nth(self.index + offset)`. -/
def LexState.peek (s : LexState) (offset : Nat) : Option Char :=
  s.source.get? (s.index + offset)

/-- `Lexer::span`. -/
def LexState.span (s : LexState) (start stop : Nat) : Span :=
  Span.new start stop s.filename

/-- `Lexer::span_at`. -/
def LexState.span_at (s : LexState) (index : Nat) : Span :=
  Span.location index s.filename

/-- `Lexer::span_from`: from `from` up to the current cursor. -/
def LexState.span_from (s : LexState) (from_ : Nat) : Span :=
  Span.new from_ s.index s.filename

/-- `Lexer::advance`: increments the cursor only when a character remains. -/
def LexState.advance (s : LexState) : LexState :=
  if s.current.isSome then { s with index := s.index + 1 } else s

/-- `advance` iterated (`for _ in 0..length { self.advance(); }`). -/
def LexState.advanceN (s : LexState) : Nat → LexState
  | 0 => s
  | n + 1 => (s.advance).advanceN n

/-- `Lexer::push`. -/
def LexState.push (s : LexState) (t : Token) : LexState :=
  { s with tokens := s.tokens ++ [t] }

/-- `Lexer::push_simple`: slices the source by BYTE offsets
`index..index+length` (panic = `none` when that is not a valid slice), then
advances `length` characters and pushes the token with span
`span_from(start)`. -/
def LexState.push_simple (s : LexState) (kind : TokenKind) (length : Nat) :
    Option LexState :=
  let start := s.index
  match sliceBytes s.source s.index (s.index + length) with
  | none => none
  | some text =>
    let s1 := s.advanceN length
    some (s1.push (Token.new kind (s1.span_from start) text))

/-- `Lexer::push_report`: appends to the shared sink and sets `had_error`. -/
def LexState.push_report (s : LexState) (r : ErrorReport) : LexState :=
  { s with reports := s.reports ++ [r], had_error := true }

/-! ## Scanning (`Lexer::lex_tokens`, `Lexer::lex_integer`) -/

/-- `Base` from `src/lexer.rs`. -/
inductive Base where
  | Bin
  | Oct
  | Dec
  | Hex
deriving DecidableEq, Repr

/-- `Base::to_string`. -/
def Base.to_string : Base → String
  | .Bin => "Binary"
  | .Oct => "Octal"
  | .Dec => "Decimal"
  | .Hex => "Hexadecimal"

/-- `impl From<Base> for TokenKind`. -/
def Base.tokenKind : Base → TokenKind
  | .Bin => TokenKind.IntegerLiteralBin
  | .Oct => TokenKind.IntegerLiteralOct
  | .Dec => TokenKind.IntegerLiteralDec
  | .Hex => TokenKind.IntegerLiteralHex

/-- Rust `char::is_whitespace`: the Unicode `White_Space` property. -/
def rustIsWhitespace (c : Char) : Bool :=
  let n := c.toNat
  (0x9 ≤ n && n ≤ 0xd) || n == 0x20 || n == 0x85 || n == 0xa0 || n == 0x1680 ||
  (0x2000 ≤ n && n ≤ 0x200a) || n == 0x2028 || n == 0x2029 || n == 0x202f ||
  n == 0x205f || n == 0x3000

/-- The pattern `'a'..='z' | 'A'..='Z' | '_'` (identifier start). -/
def isIdentStart (c : Char) : Bool :=
  ('a' ≤ c && c ≤ 'z') || ('A' ≤ c && c ≤ 'Z') || c == '_'

/-- The pattern `'a'..='z' | 'A'..='Z' | '0'..='9' | '_'` (identifier body). -/
def isIdentCont (c : Char) : Bool :=
  isIdentStart c || ('0' ≤ c && c ≤ '9')

/-- Whether a (lowercased) character is a valid digit of the base:
`0-1` binary, `0-7` octal, `0-9` decimal, `0-9a-f` hex. -/
def Base.isDigit : Base → Char → Bool
  | .Bin, c => '0' ≤ c && c ≤ '1'
  | .Oct, c => '0' ≤ c && c ≤ '7'
  | .Dec, c => '0' ≤ c && c ≤ '9'
  | .Hex, c => ('0' ≤ c && c ≤ '9') || ('a' ≤ c && c ≤ 'f')

/-- The catch-all pattern `(_, '0'..='9' | 'a'..='z')` of `lex_integer`
(the character is lowercased before matching). -/
def isAlnumLower (c : Char) : Bool :=
  ('0' ≤ c && c ≤ '9') || ('a' ≤ c && c ≤ 'z')

/-- Rust `char::to_ascii_lowercase` (maps only `A-Z`). -/
def toAsciiLower (c : Char) : Char :=
  if 'A' ≤ c && c ≤ 'Z' then Char.ofNat (c.toNat + 32) else c

/-- `Lexer::lex_integer`: consumes digits of `base` into `buf` (underscores
consumed but not stored); on another alphanumeric character it pushes an
"Invalid Integer Literal" report and returns failure (`false`), consuming
nothing further (the `self.advance()` there is commented out in the source);
any other character ends the run successfully. `fuel` bounds the iteration
count; the callers pass more fuel than there are characters left. -/
def lex_integer : Nat → LexState → String → Base → Nat →
    LexState × String × Bool
  | 0, s, buf, _, _ => (s, buf, true)
  | fuel + 1, s, buf, base, start =>
    match s.current with
    | none => (s, buf, true)
    | some c =>
      let lc := toAsciiLower c
      if base.isDigit lc then
        lex_integer fuel s.advance (buf.push c) base start
      else if isAlnumLower lc then
        let sp := s.span_from start
        let e := ((ErrorReport.new ErrorReportKind.SyntaxError sp
              "Invalid Integer Literal").with_label
            ((((Label.new sp).with_message
                (base.to_string ++ " integer literal")).with_color
              ColorKind.BrightBlue).with_order 1)).with_label
          (((Label.new (s.span_at s.index)).with_message
              "Invalid character").with_color ColorKind.Red)
        (s.push_report e, buf, false)
      else if lc = '_' then
        lex_integer fuel s.advance buf base start
      else (s, buf, true)

/-- The identifier loop of `lex_tokens`: consumes a run of
`[A-Za-z0-9_]` characters into the accumulator. -/
def lexIdentLoop : Nat → LexState → String → LexState × String
  | 0, s, acc => (s, acc)
  | fuel + 1, s, acc =>
    match s.current with
    | none => (s, acc)
    | some c =>
      if isIdentCont c then lexIdentLoop fuel s.advance (acc.push c)
      else (s, acc)

/-- The `//` line-comment loop of `lex_tokens`: consumes characters up to
(but not including) the next newline or end of input. -/
def lexLineComment : Nat → LexState → LexState
  | 0, s => s
  | fuel + 1, s =>
    match s.current with
    | none => s
    | some c => if c = '\n' then s else lexLineComment fuel s.advance

/-- The `/*` block-comment loop of `lex_tokens` (`while depth > 0`): a
further `/*` increments `depth`; a `*/` advances twice and decrements
`depth`; every iteration then advances once more; end of input with
`depth > 0` pushes the "Unterminated Multi-Line Comment" report and breaks. -/
def lexBlockComment : Nat → LexState → Nat → Nat → LexState
  | 0, s, _, _ => s
  | fuel + 1, s, depth, start =>
    if depth = 0 then s
    else
      match s.current with
      | none =>
        let sp := s.span_from start
        let e := (ErrorReport.new ErrorReportKind.SyntaxError sp
            "Unterminated Multi-Line Comment").with_label
          (((Label.new (s.span start (start + 2))).with_message
              "Comment started here").with_color ColorKind.Red)
        s.push_report e
      | some c =>
        let sd :=
          if c = '/' && s.peek 1 == some '*' then (s, depth + 1)
          else if c = '*' && s.peek 1 == some '/' then
            (s.advance.advance, depth - 1)
          else (s, depth)
        lexBlockComment fuel sd.1.advance sd.2 start

/-- Rust `format!("{:?}", c)` on a `char`: the character between single
quotes (escape sequences for special characters are not needed by any
claim and are not modelled). -/
def charDebug (c : Char) : String :=
  "'" ++ String.singleton c ++ "'"

/-- The error reported for a second `.` in a float literal. -/
def secondFractionalReport (s : LexState) (start : Nat) : ErrorReport :=
  (ErrorReport.new ErrorReportKind.SyntaxError (s.span_from start)
      "Invalid Float Literal").with_label
    (((Label.new (s.span_at s.index)).with_message
        "Second fractional indicator").with_color ColorKind.Red)

/-- The tail of the decimal-literal arm of `lex_tokens`, shared by the
`'0'..='9'` arm (after its leading integer part) and the `'.'` arm: scans
the fractional digits; a further `.` is the "Invalid Float Literal" error
(token discarded), otherwise a `FloatLiteral` token is pushed. -/
def lexFloatTail (fuel : Nat) (s : LexState) (buf : String) (start : Nat) :
    LexState :=
  let r := lex_integer fuel s.advance (buf.push '.') Base.Dec start
  if r.2.2 = false then r.1
  else
    match r.1.current with
    | some '.' => r.1.push_report (secondFractionalReport r.1 start)
    | _ =>
      r.1.push (Token.new TokenKind.FloatLiteral (r.1.span_from start) r.2.1)

/-- One iteration body of the `lex_tokens` dispatch loop, for current
character `c` (`none` is a panic inside `push_simple`). The inner loops
receive fuel `s.source.length + 1`, which exceeds the remaining input. -/
def lexStep (s : LexState) (c : Char) : Option LexState :=
  let start := s.index
  let fuel := s.source.length + 1
  if rustIsWhitespace c then some s.advance
  else if isIdentStart c then
    let r := lexIdentLoop fuel s ""
    let sp := r.1.span start (r.1.index - 1)
    let kind := if r.2 = "let" then TokenKind.Let else TokenKind.Identifier
    some (r.1.push (Token.new kind sp r.2))
  else if c = '0' && (s.peek 1).any (fun c2 => c2 == 'b' || c2 == 'o' || c2 == 'x') then
    let base : Base :=
      match s.peek 1 with
      | some 'b' => Base.Bin
      | some 'o' => Base.Oct
      | some 'x' => Base.Hex
      | _ => Base.Dec
    let r := lex_integer fuel s.advance.advance "" base start
    if r.2.2 = false then some r.1
    else some (r.1.push
      (Token.new base.tokenKind (r.1.span_from start) r.2.1))
  else if '0' ≤ c && c ≤ '9' then
    let r := lex_integer fuel s "" Base.Dec start
    if r.2.2 = false then some r.1
    else
      match r.1.current with
      | some '.' => some (lexFloatTail fuel r.1 r.2.1 start)
      | _ => some (r.1.push
          (Token.new TokenKind.IntegerLiteralDec (r.1.span_from start) r.2.1))
  else if c = '.' then
    match s.peek 1 with
    | some c2 =>
      if '0' ≤ c2 && c2 ≤ '9' then some (lexFloatTail fuel s "" start)
      else s.push_simple TokenKind.Period 1
    | none => s.push_simple TokenKind.Period 1
  else if c = '/' then
    match s.peek 1 with
    | some '/' => some (lexLineComment fuel s)
    | some '*' => some (lexBlockComment fuel s.advance 1 start)
    | _ => s.push_simple TokenKind.Slash 1
  else if c = ';' then s.push_simple TokenKind.SemiColon 1
  else if c = '=' then s.push_simple TokenKind.Equals 1
  else
    let sp := s.span_at s.index
    let e := (ErrorReport.new ErrorReportKind.UnexpectedCharacter sp
        (charDebug c)).with_label
      (((Label.new sp).with_message "Not a valid character.").with_color
        ColorKind.Red)
    some (s.push_report e).advance

/-- The `while let Some(char) = self.current()` loop of `lex_tokens`,
followed by `push_simple(EOF, 0)` at end of input. -/
def lexLoop : Nat → LexState → Option LexState
  | 0, _ => none
  | fuel + 1, s =>
    match s.current with
    | none => s.push_simple TokenKind.EOF 0
    | some c =>
      match lexStep s c with
      | none => none
      | some s1 => lexLoop fuel s1

/-- `Lexer::lex_tokens`, run from a fresh lexer on the given filename and
source: `none` is a panic. Fuel `source.length + 1` bounds the outer loop,
whose every iteration advances the cursor by at least one character. -/
def lexRun (filename source : String) : Option LexState :=
  lexLoop (source.length + 1) (LexState.init filename source)

/-! ## Observation helpers used in the claim statements -/

/-- The kinds of the tokens a lexer run produced. -/
def LexState.tokenKinds (s : LexState) : List TokenKind :=
  s.tokens.map Token.kind

/-- Kind and text of each produced token. -/
def LexState.tokenKindTexts (s : LexState) : List (TokenKind × String) :=
  s.tokens.map fun t => (t.kind, t.text)

/-- Kind, text and span endpoints of a produced token. -/
structure TokenObs where
  kind : TokenKind
  text : String
  start : Nat
  stop : Nat
deriving DecidableEq, Repr

/-- Message and span endpoints of a diagnostic label. -/
structure LabelObs where
  message : String
  start : Nat
  stop : Nat
deriving DecidableEq, Repr

/-- Title, primary-span endpoints and label summaries of a diagnostic. -/
structure ReportObs where
  title : String
  start : Nat
  stop : Nat
  labels : List LabelObs
deriving DecidableEq, Repr

/-- Kind, text and span endpoints of each produced token. -/
def LexState.tokenFull (s : LexState) : List TokenObs :=
  s.tokens.map fun t => ⟨t.kind, t.text, t.span.start, t.span.stop⟩

/-- Summary of a diagnostic. -/
def reportSummary (r : ErrorReport) : ReportObs :=
  ⟨r.title, r.span.start, r.span.stop,
    r.labels.map fun l => ⟨l.message, l.span.start, l.span.stop⟩⟩

/-- Diagnostic summaries of a lexer run. -/
def LexState.reportSummaries (s : LexState) : List ReportObs :=
  s.reports.map reportSummary

/-- The externally observable outcome of a lexer run: whether it panicked,
the produced tokens, the error flag, and the diagnostic summaries. -/
structure LexObs where
  panicked : Bool
  tokens : List TokenObs
  had_error : Bool
  reports : List ReportObs
deriving DecidableEq, Repr

/-- Observe a lexer run on the given filename and source. -/
def observe (filename source : String) : LexObs :=
  match lexRun filename source with
  | none => ⟨true, [], false, []⟩
  | some s => ⟨false, s.tokenFull, s.had_error, s.reportSummaries⟩

/-! ## Parser (`src/parser.rs`) and driver (`src/main.rs`) -/

mutual

/-- `AST` from `src/ast.rs`: a span plus a node kind. -/
inductive AST where
  | mk : Span → ASTKind → AST

/-- `ASTKind` from `src/ast.rs` (the float payload is irrelevant to every
claim; it is kept as Lean's `Float` for `f64`). -/
inductive ASTKind where
  | StringLiteral : String → ASTKind
  | IntegerLiteral : Int → ASTKind
  | FloatLiteral : Float → ASTKind
  | Add : AST → AST → ASTKind

end

/-- The `Parser` struct: the current token, the remaining token iterator,
the error flag and the shared diagnostic sink. -/
structure ParseState where
  current : Token
  tokens : List Token
  had_error : Bool
  reports : List ErrorReport

/-- `Parser::new`: takes the first token as `current`
(`.expect("EOF Token doesn't exist.")` panics — `none` — on an empty
sequence). -/
def ParseState.init (tokens_vec : List Token) (reports : List ErrorReport) :
    Option ParseState :=
  match tokens_vec with
  | [] => none
  | t :: rest => some ⟨t, rest, false, reports⟩

/-- `Parser::advance` (`.expect("EOF Token skipped.")` panics — `none` —
when no token remains). -/
def ParseState.advance (p : ParseState) : Option ParseState :=
  match p.tokens with
  | [] => none
  | t :: rest => some { p with current := t, tokens := rest }

/-- `Parser::push_report`. -/
def ParseState.push_report (p : ParseState) (r : ErrorReport) : ParseState :=
  { p with had_error := true, reports := p.reports ++ [r] }

/-- `Parser::parse_atom`: a `StringLiteral` token yields a string-literal
node; `EOF` yields a `Custom` "Unexpected EOF" error; anything else an
`UnexpectedToken` error labelled at the token's span. -/
def ParseState.parse_atom (p : ParseState) :
    Option (ParseState × Except ErrorReport AST) :=
  match p.current.kind with
  | TokenKind.StringLiteral =>
    match p.advance with
    | none => none
    | some p1 =>
      some (p1, Except.ok
        (AST.mk p.current.span (ASTKind.StringLiteral p.current.text)))
  | TokenKind.EOF =>
    some (p, Except.error
      (ErrorReport.new ErrorReportKind.Custom p.current.span "Unexpected EOF"))
  | k =>
    some (p, Except.error
      (((ErrorReport.new ErrorReportKind.UnexpectedToken p.current.span
          k.name)).with_label
        ((Label.new p.current.span).with_color ColorKind.Red)))

/-- `Parser::parse`: on failure pushes the one diagnostic and yields
nothing. -/
def ParseState.parse (p : ParseState) : Option (Option AST × ParseState) :=
  match p.parse_atom with
  | none => none
  | some (p1, Except.ok node) => some (some node, p1)
  | some (p1, Except.error e) => some (none, p1.push_report e)

/-- `interpret` from `src/main.rs`, returning the function's exit code:
`64` when the lexer recorded errors, `69` when the parse produced nothing
or the parser recorded errors; `none` models a panic (a lexer slicing
panic, a parser `.expect` panic, or the `unimplemented` interpretation
step reached after a fully successful parse). -/
def interpret (filename source : String) : Option Int :=
  match lexRun filename source with
  | none => none
  | some s =>
    if s.had_error then some 64
    else
      match ParseState.init s.tokens s.reports with
      | none => none
      | some p =>
        match p.parse with
        | none => none
        | some (astOpt, p1) =>
          match astOpt with
          | none => some 69
          | some _ => if p1.had_error then some 69 else none

/-! ## Helper lemmas -/

/-- `advance` increments the cursor while input remains. -/
theorem LexState.advance_of_lt (s : LexState) (h : s.index < s.source.length) :
    s.advance = { s with index := s.index + 1 } := by
  unfold LexState.advance LexState.current
  rw [List.get?_eq_get h]
  rfl

/-- `advanceN` adds `n` to the cursor while it stays within the input. -/
theorem LexState.advanceN_of_le (s : LexState) (n : Nat)
    (h : s.index + n ≤ s.source.length) :
    s.advanceN n = { s with index := s.index + n } := by
  induction n generalizing s with
  | zero => simp [LexState.advanceN]
  | succ n ih =>
    unfold LexState.advanceN
    rw [LexState.advance_of_lt s (by omega)]
    rw [ih { s with index := s.index + 1 } (by simpa using by omega)]
    have hx : s.index + 1 + n = s.index + (n + 1) := by omega
    rw [hx]

/-! ## The claims -/

/-- Claim C1: for source text `"let x = 5;"`, the lexer produces exactly the
token sequence `[Let, Identifier "x", Equals, IntegerLiteralDec "5",
SemiColon, EOF]` and raises zero diagnostics: `had_error` stays false and
the shared sink stays empty. -/
theorem claim_c1_let_statement :
    (lexRun "f" "let x = 5;").map
      (fun s => (s.tokenKindTexts, s.had_error, s.reports)) =
    some ([(TokenKind.Let, "let"), (TokenKind.Identifier, "x"),
      (TokenKind.Equals, "="), (TokenKind.IntegerLiteralDec, "5"),
      (TokenKind.SemiColon, ";"), (TokenKind.EOF, "")], false, []) := by
  decide

/-- Claim C2: for input `"/* a /* b */ c */"` (17 characters) the lexer
consumes the entire input as one nested block comment: the output is the
single `EOF` token, no diagnostics, `had_error` false, and the cursor ends
at 17 (the whole input was consumed by the comment loop, whose depth
counter returned to zero exactly at the end). -/
theorem claim_c2_nested_block_comment :
    (lexRun "f" "/* a /* b */ c */").map
      (fun s => (s.tokenKinds, s.had_error, s.reports, s.index)) =
    some ([TokenKind.EOF], false, [], 17) := by
  decide

/-- Claim C3 counterexample: for input `"0b012"` the token output is NOT
just the final `EOF` token — scanning resumes at (not after) the bad
character `'2'`, which is re-lexed as a decimal literal. -/
theorem claim_c3_counterexample :
    (lexRun "f" "0b012").map LexState.tokenKinds =
      some [TokenKind.IntegerLiteralDec, TokenKind.EOF] ∧
    (lexRun "f" "0b012").map LexState.tokenKinds ≠ some [TokenKind.EOF] := by
  decide

/-- Claim C3 as amended: for input `"0b012"` the lexer raises exactly one
`SyntaxError` "Invalid Integer Literal" diagnostic, with one label spanning
the attempted literal naming its base ("Binary integer literal", span 0..4)
and one label at the offending character (4..4); no literal token is
emitted for that lexeme; but scanning resumes AT the bad character (the
advance past it is commented out in the source), so `'2'` is re-lexed and
the output is `[IntegerLiteralDec "2", EOF]`. -/
theorem claim_c3_amended_resume_at_bad_char :
    observe "f" "0b012" =
      ⟨false,
        [⟨TokenKind.IntegerLiteralDec, "2", 4, 5⟩, ⟨TokenKind.EOF, "", 5, 5⟩],
        true,
        [⟨"SyntaxError: Invalid Integer Literal", 0, 4,
          [⟨"Binary integer literal", 0, 4⟩, ⟨"Invalid character", 4, 4⟩]⟩]⟩ := by
  decide

/-- Claim C4 counterexample: for input `"12.5.6"` the token output is NOT
just the `EOF` token — the second `'.'` starts a fresh numeric lexeme and
`".6"` is emitted as a `FloatLiteral`. -/
theorem claim_c4_counterexample :
    (lexRun "f" "12.5.6").map LexState.tokenKinds =
      some [TokenKind.FloatLiteral, TokenKind.EOF] ∧
    (lexRun "f" "12.5.6").map LexState.tokenKinds ≠ some [TokenKind.EOF] := by
  decide

/-- Claim C4 as amended: for input `"12.5.6"` the lexer raises exactly one
`SyntaxError` "Invalid Float Literal" diagnostic for the second fractional
indicator (label at 4..4) and emits no `FloatLiteral` for the `"12.5"` run;
but scanning resumes at the second `'.'`, which begins a new numeric
lexeme, so the output is `[FloatLiteral ".6", EOF]`. -/
theorem claim_c4_amended_second_dot :
    observe "f" "12.5.6" =
      ⟨false, [⟨TokenKind.FloatLiteral, ".6", 4, 6⟩, ⟨TokenKind.EOF, "", 6, 6⟩],
        true,
        [⟨"SyntaxError: Invalid Float Literal", 0, 4,
          [⟨"Second fractional indicator", 4, 4⟩]⟩]⟩ := by
  decide

/-- Claim C5 counterexample: the single-character token `";"` has span
start 0 and span end 1 (the cursor, not cursor minus one), not the
start == end the claim predicts for single-character tokens. -/
theorem claim_c5_counterexample :
    (lexRun "f" ";").map
        (fun s => s.tokens.map (fun t => (t.kind, t.span.start, t.span.stop))) =
      some [(TokenKind.SemiColon, 0, 1), (TokenKind.EOF, 1, 1)] ∧
    (lexRun "f" ";").map
        (fun s => s.tokens.map (fun t => (t.kind, t.span.start, t.span.stop))) ≠
      some [(TokenKind.SemiColon, 0, 0), (TokenKind.EOF, 1, 1)] := by
  decide

/-- Claim C5 as amended: only identifier/keyword tokens use the
inclusive-end convention (span end = cursor − 1 at completion, as for the
identifier `"ab"` with span 0..1); every token pushed through `push_simple`
gets span end = the cursor itself after consuming `length` characters,
i.e. start + length, so a single-character simple token has end = start + 1
and only the zero-length `EOF` token has start = end. -/
theorem claim_c5_amended_span_convention :
    (∀ (s : LexState) (kind : TokenKind) (length : Nat) (txt : String),
      s.index + length ≤ s.source.length →
      sliceBytes s.source s.index (s.index + length) = some txt →
      s.push_simple kind length =
        some { s with
          index := s.index + length
          tokens := s.tokens ++
            [Token.new kind (Span.new s.index (s.index + length) s.filename)
              txt] }) ∧
    (lexRun "f" "ab").map
        (fun s => s.tokens.map (fun t => (t.kind, t.span.start, t.span.stop))) =
      some [(TokenKind.Identifier, 0, 1), (TokenKind.EOF, 2, 2)] := by
  constructor
  · intro s kind length txt h1 h2
    unfold LexState.push_simple
    rw [h2]
    rw [LexState.advanceN_of_le s length h1]
    rfl
  · decide

/-- Witness for claim C5's amended theorem: `push_simple SemiColon 1` on a
fresh lexer over `";"` produces the token with span 0..1. -/
theorem claim_c5_amended_span_convention_witness :
    (LexState.init "f" ";").push_simple TokenKind.SemiColon 1 =
      some { LexState.init "f" ";" with
        index := 1
        tokens := [Token.new TokenKind.SemiColon (Span.new 0 1 "f") ";"] } :=
  claim_c5_amended_span_convention.1 (LexState.init "f" ";")
    TokenKind.SemiColon 1 ";" (by decide) (by decide)

/-- Claim C6 (evaluating the code at the failing input): on the one-character
multi-byte input `"é"`, the lexer panics — `push_simple(EOF, 0)` byte-slices
`source[1..1]`, and byte offset 1 falls inside the two-byte UTF-8 encoding
of `'é'`, so the run does not complete. -/
theorem claim_c6_lexer_panics_on_multibyte :
    lexRun "f" "é" = none := by
  decide

/-- Claim C7 counterexample: with a = `⟨5, 6⟩` and b = `⟨0, 1⟩` (same
source id), `a.extend b` is `⟨5, 1⟩`, not the enclosing range
`⟨min 5 0, max 6 1⟩ = ⟨0, 6⟩`. -/
theorem claim_c7_counterexample :
    Span.extend ⟨5, 6, "f"⟩ ⟨0, 1, "f"⟩ = ⟨5, 1, "f"⟩ ∧
    Span.extend ⟨5, 6, "f"⟩ ⟨0, 1, "f"⟩ ≠
      ⟨Nat.min 5 0, Nat.max 6 1, "f"⟩ := by
  decide

/-- Claim C7 as amended: for every pair of spans a and b, `a.extend b`
returns the span whose start is a's start, whose end is b's end, and whose
source id is a's — the enclosing range only when a starts no later than b
and ends no later than b. -/
theorem claim_c7_amended_extend_fields :
    ∀ (a b : Span), (a.extend b).start = a.start ∧
      (a.extend b).stop = b.stop ∧ (a.extend b).filename = a.filename :=
  fun _ _ => ⟨rfl, rfl, rfl⟩

/-- Claim C8 counterexample: a lexical error (`"0b012"`) exits with 64
while a parse error (`"="`) exits with 69 — two different failure codes,
not one collapsed code. -/
theorem claim_c8_counterexample :
    interpret "f" "0b012" = some 64 ∧ interpret "f" "=" = some 69 ∧
      (64 : Int) ≠ 69 := by
  decide

/-- Claim C8 as amended: the driver exits 64 when the lexer recorded errors
(e.g. `"0b012"`) and 69 when the parse failed (e.g. `"="`) — two distinct
non-zero failure codes; it never returns 0, since a fully successful parse
reaches the unimplemented interpretation step and panics. -/
theorem claim_c8_amended_exit_codes :
    interpret "f" "0b012" = some 64 ∧ interpret "f" "=" = some 69 ∧
    ∀ (filename source : String),
      interpret filename source = none ∨
      interpret filename source = some 64 ∨
      interpret filename source = some 69 := by
  refine ⟨by decide, by decide, ?_⟩
  intro filename source
  unfold interpret
  split
  · exact Or.inl rfl
  · split
    · exact Or.inr (Or.inl rfl)
    · split
      · exact Or.inl rfl
      · split
        · exact Or.inl rfl
        · split
          · exact Or.inr (Or.inr rfl)
          · split
            · exact Or.inr (Or.inr rfl)
            · exact Or.inl rfl

/-- Claim C9: a base prefix followed by no digits (or only underscores)
yields a literal token with empty text spanning the prefix and no
diagnostic: `"0x"` and `"0x_"` give an `IntegerLiteralHex` with text `""`,
`"0b"` an `IntegerLiteralBin`, `"0o"` an `IntegerLiteralOct`. -/
theorem claim_c9_empty_based_literals :
    observe "f" "0x" =
      ⟨false, [⟨TokenKind.IntegerLiteralHex, "", 0, 2⟩,
        ⟨TokenKind.EOF, "", 2, 2⟩], false, []⟩ ∧
    observe "f" "0x_" =
      ⟨false, [⟨TokenKind.IntegerLiteralHex, "", 0, 3⟩,
        ⟨TokenKind.EOF, "", 3, 3⟩], false, []⟩ ∧
    observe "f" "0b" =
      ⟨false, [⟨TokenKind.IntegerLiteralBin, "", 0, 2⟩,
        ⟨TokenKind.EOF, "", 2, 2⟩], false, []⟩ ∧
    observe "f" "0o" =
      ⟨false, [⟨TokenKind.IntegerLiteralOct, "", 0, 2⟩,
        ⟨TokenKind.EOF, "", 2, 2⟩], false, []⟩ := by
  decide

/-- Claim C10: `"/*/"` is a complete, terminated block comment — the `'*'`
of the opening `"/*"` pairs with the immediately following `'/'` — so the
output is only the `EOF` token, no diagnostic, `had_error` false. -/
theorem claim_c10_slash_star_slash_comment :
    observe "f" "/*/" =
      ⟨false, [⟨TokenKind.EOF, "", 3, 3⟩], false, []⟩ := by
  decide
